import Mathlib

/-!
Shallow embedding of the WS2812 LED pattern driver (src/ws2812.c) and proofs
about its pattern routines, mode-signal state machine and pixel encoding.

Machine integers are modelled as Nat (with explicit reduction mod 256 where
the C code uses uint8_t arithmetic) and Int for signed C ints.  Each routine's
per-frame mutation of its local state is modelled as a step function, and a
frame's buffer contents (or the list of per-cell writes it performs) as a pure
function of that state.
-/

namespace WS2812

/-- MODE_MAX from the source: the number of LED patterns. -/
def MODE_MAX : Nat := 6

/-- NUM_PIXELS from the source: the length of the LED buffer allocated in main. -/
def NUM_PIXELS : Nat := 100

/-- led_pattern_max from the source: the maximum pattern code. -/
def led_pattern_max : Nat := MODE_MAX

/-- rgb_u32 from the source.  The C body is
`((uint32_t)(g) << 8) | ((uint32_t)(r) << 16) | (uint32_t)(b)`; the uint8_t
parameter types are modelled by reducing each argument mod 256. -/
def rgb_u32 (r g b : Nat) : Nat :=
  (((g % 256) <<< 8) ||| ((r % 256) <<< 16)) ||| (b % 256)

/-- led_array_set from the source: the buffer contents after
`led_array_set(array, array_size, colour)`, which writes `colour` to every
cell 0..array_size-1. -/
def led_array_set (array_size : Nat) (colour : Nat) : List Nat :=
  List.replicate array_size colour

/-- ModeState: the three operating-data globals `led_pressed`,
`button_interrupt` and `led_pattern`. -/
structure ModeState where
  led_pressed : Bool
  button_interrupt : Bool
  led_pattern : Nat
  deriving DecidableEq

/-- get_interrupted from the source: returns the flag, clearing it when set.
The pair is (returned value, state after the call). -/
def get_interrupted (s : ModeState) : Bool × ModeState :=
  let ret := s.button_interrupt
  if ret then (ret, { s with button_interrupt := false }) else (ret, s)

/-- gpio_callback from the source: on a press edge (events & 0x04) set
led_pressed; on a release edge (events & 0x08) with led_pressed set,
increment led_pattern wrapping at led_pattern_max, raise button_interrupt
and clear led_pressed. -/
def gpio_callback (events : Nat) (s : ModeState) : ModeState :=
  if events &&& 0x04 ≠ 0 then
    if s.led_pressed = false then { s with led_pressed := true } else s
  else if events &&& 0x08 ≠ 0 then
    if s.led_pressed = true then
      { led_pressed := false,
        button_interrupt := true,
        led_pattern :=
          if s.led_pattern + 1 = led_pattern_max then 0 else s.led_pattern + 1 }
    else s
  else s

/-- A complete button gesture: a press edge (mask 0x04) followed by a release
edge (mask 0x08), both delivered to gpio_callback. -/
def press_release (s : ModeState) : ModeState :=
  gpio_callback 0x08 (gpio_callback 0x04 s)

/-- The state effect of one render-loop poll: get_interrupted, keeping only
the resulting state. -/
def poll_state (s : ModeState) : ModeState :=
  (get_interrupted s).2

/-- One channel of fade_three's mutable state: the 8-bit value and the signed
step direction. -/
structure FadeChan where
  val : Nat
  dir : Int
  deriving DecidableEq

/-- One frame's update of a single fade_three channel, from the source:
`red += d_red` in uint8_t arithmetic, then
`d_red = (red == 255) ? -1 : (red == 0) ? 1 : d_red`. -/
def fade_chan_step (s : FadeChan) : FadeChan :=
  let v : Nat := (((s.val : Int) + s.dir) % 256).toNat
  { val := v, dir := if v = 255 then -1 else if v = 0 then 1 else s.dir }

/-- fade_three's initial direction for a channel: `(red > 127) ? -adj : adj`. -/
def fade_init_dir (adj : Int) (v : Nat) : Int :=
  if v > 127 then -adj else adj

/-- The list of (cell index, value) writes performed by one iteration of
fade_three's render loop.  The C loop runs `idx` from 0 to array_size-1 and on
each iteration writes `ap[0], ap[1], ap[2]` before advancing `ap` by 3, so
iteration idx writes cells 3*idx, 3*idx+1 and 3*idx+2. -/
def fade_frame_writes (array_size red grn blu : Nat) : List (Nat × Nat) :=
  (List.range array_size).flatMap fun idx =>
    [(3 * idx, rgb_u32 (red >>> 3) 0 0),
     (3 * idx + 1, rgb_u32 0 (grn >>> 3) 0),
     (3 * idx + 2, rgb_u32 0 0 (blu >>> 3))]

/-- step_three's mutable state: the phase index `clr_index` and the ramp
counter `clr_value`. -/
structure StepState where
  clr_index : Nat
  clr_value : Nat
  deriving DecidableEq

/-- One frame's update of step_three's state, from the source:
`clr_value++` in uint8_t arithmetic; when it reaches 255 reset it to 0 and
advance `clr_index`, wrapping to 0 past 2. -/
def step_three_advance (s : StepState) : StepState :=
  let v := (s.clr_value + 1) % 256
  if v = 255 then
    { clr_value := 0,
      clr_index := if s.clr_index + 1 > 2 then 0 else s.clr_index + 1 }
  else { s with clr_value := v }

/-- The buffer contents rendered by step_three at a given state: the C switch
fills the whole array with one channel holding `clr_value >> 3`
(default and case 0 fall through to red, case 1 green, case 2 blue). -/
def step_three_frame (array_size : Nat) (s : StepState) : List Nat :=
  match s.clr_index with
  | 1 => led_array_set array_size (rgb_u32 0 (s.clr_value >>> 3) 0)
  | 2 => led_array_set array_size (rgb_u32 0 0 (s.clr_value >>> 3))
  | _ => led_array_set array_size (rgb_u32 (s.clr_value >>> 3) 0 0)

/-- chase_colour's mutable state: position, direction and the active colour
id (the uint8_t character codes 114 = r, 103 = g, 98 = b). -/
structure ChaseState where
  clr_pos : Int
  clr_dir : Int
  clr_id : Nat
  deriving DecidableEq

/-- chase_colour's initial state: `clr_pos = 0, clr_id = 'r', clr_dir = 1`. -/
def chase_start : ChaseState :=
  { clr_pos := 0, clr_dir := 1, clr_id := 114 }

/-- The colour-id rotation of chase_colour's switch: case g goes to b,
case b goes to r, and default together with case r goes to g. -/
def chase_next_id (id : Nat) : Nat :=
  if id = 103 then 98 else if id = 98 then 114 else 103

/-- One frame's position/direction/colour update of chase_colour, from the
source: moving forward, bounce at array_size by stepping back to
array_size-1; moving backward, bounce at -1 by resetting to 0, turning
forward and rotating the colour id. -/
def chase_advance (array_size : Nat) (s : ChaseState) : ChaseState :=
  if s.clr_dir = 1 then
    let p := s.clr_pos + 1
    if p = (array_size : Int) then { s with clr_dir := -1, clr_pos := p - 1 }
    else { s with clr_pos := p }
  else if s.clr_dir = -1 then
    let p := s.clr_pos - 1
    if p < 0 then { clr_pos := 0, clr_dir := 1, clr_id := chase_next_id s.clr_id }
    else { s with clr_pos := p }
  else s

/-- The foreground colour word chase_colour derives from the colour id. -/
def chase_clr_fg (id : Nat) : Nat :=
  if id = 114 then 0x0f0000 else if id = 103 then 0x000f00 else 0x00000f

/-- The background colour word chase_colour derives from the colour id and
the bg_on flag. -/
def chase_clr_bg (id : Nat) (bg_on : Bool) : Nat :=
  if id = 114 then (if bg_on then 0x000201 else 0)
  else if id = 103 then (if bg_on then 0x010002 else 0)
  else (if bg_on then 0x020100 else 0)

/-- The buffer contents rendered by one chase_colour frame: the foreground
colour at index clr_pos, the background colour everywhere else. -/
def chase_frame (array_size : Nat) (bg_on : Bool) (s : ChaseState) : List Nat :=
  (List.range array_size).map fun idx =>
    if (idx : Int) = s.clr_pos then chase_clr_fg s.clr_id
    else chase_clr_bg s.clr_id bg_on

/-- Claim C4 counterexample: the claim puts green in the most significant of
the three channel bytes, so encoding pure green should give 0xff0000; the
code gives 0x00ff00 for pure green and 0xff0000 for pure red, i.e. red holds
the most significant byte. -/
theorem C4_counterexample :
    rgb_u32 0 255 0 = 0x00ff00 ∧ rgb_u32 0 255 0 ≠ 0xff0000 ∧
    rgb_u32 255 0 0 = 0xff0000 := by
  decide

/-- Claim C4 (amended): rgb_u32 packs the triple in natural RGB order — red
in the most significant channel byte, then green, then blue. -/
theorem C4_rgb_u32_packs_rgb (r g b : Nat) :
    rgb_u32 r g b = (r % 256) * 2 ^ 16 + (g % 256) * 2 ^ 8 + (b % 256) := by
  have hg : g % 256 < 256 := Nat.mod_lt g (by norm_num)
  have hb : b % 256 < 256 := Nat.mod_lt b (by norm_num)
  have h1 : 2 ^ 16 * (r % 256) + (g % 256) * 2 ^ 8
      = 2 ^ 16 * (r % 256) ||| (g % 256) * 2 ^ 8 :=
    Nat.mul_add_lt_is_or (by omega) _
  have h2 : 2 ^ 8 * (2 ^ 8 * (r % 256) + (g % 256)) + (b % 256)
      = 2 ^ 8 * (2 ^ 8 * (r % 256) + (g % 256)) ||| (b % 256) :=
    Nat.mul_add_lt_is_or (by omega) _
  unfold rgb_u32
  rw [Nat.shiftLeft_eq, Nat.shiftLeft_eq,
    Nat.lor_comm ((g % 256) * 2 ^ 8), Nat.mul_comm (r % 256) (2 ^ 16), ← h1]
  have h3 : 2 ^ 16 * (r % 256) + (g % 256) * 2 ^ 8
      = 2 ^ 8 * (2 ^ 8 * (r % 256) + (g % 256)) := by ring
  rw [h3, ← h2]

/-- Claim C8: get_interrupted returns the flag value, leaves the flag clear
afterwards (clearing it exactly when it was set, otherwise it was already
clear), does not touch the other fields, and a second consecutive call
therefore returns false. -/
theorem C8_get_interrupted_poll_and_clear (s : ModeState) :
    (get_interrupted s).1 = s.button_interrupt ∧
    (get_interrupted s).2.button_interrupt = false ∧
    (get_interrupted (get_interrupted s).2).1 = false ∧
    (get_interrupted s).2.led_pressed = s.led_pressed ∧
    (get_interrupted s).2.led_pattern = s.led_pattern := by
  cases s with
  | mk p bi pat => cases bi <;> simp [get_interrupted]

/-- Helper: iterating poll_state never touches led_pressed or led_pattern. -/
theorem poll_state_iterate_fields (k : Nat) (s : ModeState) :
    (poll_state^[k] s).led_pressed = s.led_pressed ∧
    (poll_state^[k] s).led_pattern = s.led_pattern := by
  induction k generalizing s with
  | zero => simp
  | succ k ih =>
    rw [Function.iterate_succ_apply]
    rcases ih (poll_state s) with ⟨h1, h2⟩
    cases s with
    | mk p bi pat => cases bi <;> simp_all [poll_state, get_interrupted]

/-- Helper: a press-release gesture from any state raises button_interrupt,
clears led_pressed, and bumps led_pattern with the wrap at 6. -/
theorem press_release_effect (s : ModeState) :
    (press_release s).button_interrupt = true ∧
    (press_release s).led_pressed = false ∧
    (press_release s).led_pattern =
      (if s.led_pattern + 1 = 6 then 0 else s.led_pattern + 1) := by
  have h44 : (4 : Nat) &&& 4 = 4 := by decide
  have h84 : (8 : Nat) &&& 4 = 0 := by decide
  have h88 : (8 : Nat) &&& 8 = 8 := by decide
  cases s with
  | mk p bi pat =>
    cases p <;>
      simp [press_release, gpio_callback, led_pattern_max, MODE_MAX, h44, h84, h88]

/-- Helper: iterated press-release gestures advance led_pattern mod 6. -/
theorem press_release_iterate_pattern (k : Nat) (s : ModeState)
    (h : s.led_pattern < 6) :
    (press_release^[k] s).led_pattern = (s.led_pattern + k) % 6 := by
  induction k generalizing s with
  | zero => simp [Nat.mod_eq_of_lt h]
  | succ k ih =>
    rw [Function.iterate_succ_apply]
    have he := (press_release_effect s).2.2
    have hlt : (press_release s).led_pattern < 6 := by
      rw [he]; split <;> omega
    rw [ih (press_release s) hlt, he]
    split <;> omega

/-- Claim C7: from any ModeState with a valid mode index, a press edge
followed by a release edge — after any number k of poll-and-clear calls —
sets button_interrupt and advances led_pattern by exactly 1 mod MODE_MAX,
and MODE_MAX consecutive press-release gestures return led_pattern to its
starting value. -/
theorem C7_press_release_advances_mode (s : ModeState) (k : Nat)
    (h : s.led_pattern < MODE_MAX) :
    (press_release (poll_state^[k] s)).button_interrupt = true ∧
    (press_release (poll_state^[k] s)).led_pattern =
      (s.led_pattern + 1) % MODE_MAX ∧
    (press_release^[MODE_MAX] s).led_pattern = s.led_pattern := by
  have hm : MODE_MAX = 6 := rfl
  have hpoll := poll_state_iterate_fields k s
  have he := press_release_effect (poll_state^[k] s)
  refine ⟨he.1, ?_, ?_⟩
  · rw [he.2.2, hpoll.2, hm]
    rw [hm] at h
    split <;> omega
  · rw [hm, press_release_iterate_pattern 6 s (hm ▸ h)]
    rw [hm] at h
    omega

/-- Witness for C7 at the concrete state (false, false, 3) with k = 2. -/
theorem C7_witness :
    ((⟨false, false, 3⟩ : ModeState).led_pattern < MODE_MAX) ∧
    ((press_release (poll_state^[2] (⟨false, false, 3⟩ : ModeState))).button_interrupt = true ∧
     (press_release (poll_state^[2] (⟨false, false, 3⟩ : ModeState))).led_pattern =
       ((⟨false, false, 3⟩ : ModeState).led_pattern + 1) % MODE_MAX ∧
     (press_release^[MODE_MAX] (⟨false, false, 3⟩ : ModeState)).led_pattern =
       (⟨false, false, 3⟩ : ModeState).led_pattern) :=
  ⟨by decide, C7_press_release_advances_mode ⟨false, false, 3⟩ 2 (by decide)⟩

set_option maxRecDepth 4000 in
/-- Claim C5 (code bug): with the scheduler's step size 2 and starting red
value 255 (main's mode-3 call), the channel walks 255, 253, ..., 1 and then
wraps modulo 256 back to 255, after which its direction register holds -1,
so the step magnitude degrades to 1: the channel neither reflects at the 0
boundary nor keeps its step magnitude 2. -/
theorem C5_fade_step2_wraps :
    fade_init_dir 2 255 = -2 ∧
    fade_chan_step^[127] ⟨255, fade_init_dir 2 255⟩ = ⟨1, -2⟩ ∧
    fade_chan_step^[128] ⟨255, fade_init_dir 2 255⟩ = ⟨255, -1⟩ := by
  decide

set_option maxRecDepth 4000 in
/-- Claim C10: in main's mode-1 fade configuration (starting values 255, 0,
127 and step size 1), each channel returns to its starting value after one
full reflect cycle of 2 * 255 frames. -/
theorem C10_fade_roundtrip :
    (fade_chan_step^[2 * 255] ⟨255, fade_init_dir 1 255⟩).val = 255 ∧
    (fade_chan_step^[2 * 255] ⟨0, fade_init_dir 1 0⟩).val = 0 ∧
    (fade_chan_step^[2 * 255] ⟨127, fade_init_dir 1 127⟩).val = 127 := by
  have r1 : fade_chan_step^[102] (⟨255, -1⟩ : FadeChan) = ⟨153, -1⟩ := by decide
  have r2 : fade_chan_step^[204] (⟨255, -1⟩ : FadeChan) = ⟨51, -1⟩ := by
    rw [show (204 : Nat) = 102 + 102 from rfl, Function.iterate_add_apply, r1]
    decide
  have r3 : fade_chan_step^[306] (⟨255, -1⟩ : FadeChan) = ⟨51, 1⟩ := by
    rw [show (306 : Nat) = 102 + 204 from rfl, Function.iterate_add_apply, r2]
    decide
  have r4 : fade_chan_step^[408] (⟨255, -1⟩ : FadeChan) = ⟨153, 1⟩ := by
    rw [show (408 : Nat) = 102 + 306 from rfl, Function.iterate_add_apply, r3]
    decide
  have r5 : fade_chan_step^[510] (⟨255, -1⟩ : FadeChan) = ⟨255, -1⟩ := by
    rw [show (510 : Nat) = 102 + 408 from rfl, Function.iterate_add_apply, r4]
    decide
  have g1 : fade_chan_step^[102] (⟨0, 1⟩ : FadeChan) = ⟨102, 1⟩ := by decide
  have g2 : fade_chan_step^[204] (⟨0, 1⟩ : FadeChan) = ⟨204, 1⟩ := by
    rw [show (204 : Nat) = 102 + 102 from rfl, Function.iterate_add_apply, g1]
    decide
  have g3 : fade_chan_step^[306] (⟨0, 1⟩ : FadeChan) = ⟨204, -1⟩ := by
    rw [show (306 : Nat) = 102 + 204 from rfl, Function.iterate_add_apply, g2]
    decide
  have g4 : fade_chan_step^[408] (⟨0, 1⟩ : FadeChan) = ⟨102, -1⟩ := by
    rw [show (408 : Nat) = 102 + 306 from rfl, Function.iterate_add_apply, g3]
    decide
  have g5 : fade_chan_step^[510] (⟨0, 1⟩ : FadeChan) = ⟨0, 1⟩ := by
    rw [show (510 : Nat) = 102 + 408 from rfl, Function.iterate_add_apply, g4]
    decide
  have b1 : fade_chan_step^[102] (⟨127, 1⟩ : FadeChan) = ⟨229, 1⟩ := by decide
  have b2 : fade_chan_step^[204] (⟨127, 1⟩ : FadeChan) = ⟨179, -1⟩ := by
    rw [show (204 : Nat) = 102 + 102 from rfl, Function.iterate_add_apply, b1]
    decide
  have b3 : fade_chan_step^[306] (⟨127, 1⟩ : FadeChan) = ⟨77, -1⟩ := by
    rw [show (306 : Nat) = 102 + 204 from rfl, Function.iterate_add_apply, b2]
    decide
  have b4 : fade_chan_step^[408] (⟨127, 1⟩ : FadeChan) = ⟨25, 1⟩ := by
    rw [show (408 : Nat) = 102 + 306 from rfl, Function.iterate_add_apply, b3]
    decide
  have b5 : fade_chan_step^[510] (⟨127, 1⟩ : FadeChan) = ⟨127, 1⟩ := by
    rw [show (510 : Nat) = 102 + 408 from rfl, Function.iterate_add_apply, b4]
    decide
  have hr : fade_init_dir 1 255 = -1 := by decide
  have hg : fade_init_dir 1 0 = 1 := by decide
  have hb : fade_init_dir 1 127 = 1 := by decide
  have h510 : (2 * 255 : Nat) = 510 := by norm_num
  refine ⟨?_, ?_, ?_⟩
  · rw [h510, hr, r5]
  · rw [h510, hg, g5]
  · rw [h510, hb, b5]

/-- Claim C1 (code bug): one iteration of fade_three's render loop over the
100-cell buffer allocated in main writes cell index 299 = 3 * 99 + 2, far
outside the valid range 0..99. -/
theorem C1_fade_writes_out_of_bounds :
    (3 * 99 + 2, rgb_u32 0 0 (127 >>> 3)) ∈ fade_frame_writes NUM_PIXELS 255 0 127 ∧
    ¬ (3 * 99 + 2 < NUM_PIXELS) := by
  constructor
  · rw [fade_frame_writes, List.mem_flatMap]
    exact ⟨99, by decide, by decide⟩
  · decide

set_option maxRecDepth 4000 in
/-- Claim C2 counterexample: for a buffer of length 6 and inputs
(255, 255, 255), the claim puts a red-only value in every cell of the first
third (indices 0 and 1); the code writes the green-only value 0x1f00 to
cell 1, and no red-only encoding equals 0x1f00. -/
theorem C2_counterexample :
    (1, rgb_u32 0 (255 >>> 3) 0) ∈ fade_frame_writes 6 255 255 255 ∧
    rgb_u32 0 (255 >>> 3) 0 = 0x1f00 ∧
    (∀ v, v < 256 → rgb_u32 v 0 0 ≠ 0x1f00) := by
  decide

/-- Claim C2 (amended): every write of fade_three's render loop holds a
single isolated brightness-scaled channel chosen by the cell index mod 3:
index 0 mod 3 red-only, 1 mod 3 green-only, 2 mod 3 blue-only — channels
are interleaved cell by cell, not laid out in contiguous thirds. -/
theorem C2_fade_interleaves_channels (n red grn blu : Nat) (p : Nat × Nat)
    (hp : p ∈ fade_frame_writes n red grn blu) :
    p.2 = if p.1 % 3 = 0 then rgb_u32 (red >>> 3) 0 0
          else if p.1 % 3 = 1 then rgb_u32 0 (grn >>> 3) 0
          else rgb_u32 0 0 (blu >>> 3) := by
  rw [fade_frame_writes, List.mem_flatMap] at hp
  obtain ⟨idx, -, h⟩ := hp
  have h0 : (3 * idx) % 3 = 0 := by omega
  have h1 : (3 * idx + 1) % 3 = 1 := by omega
  have h2 : (3 * idx + 2) % 3 = 2 := by omega
  simp only [List.mem_cons, List.mem_singleton, List.not_mem_nil, or_false] at h
  rcases h with h | h | h <;> subst h <;> simp [h0, h1, h2]

/-- Witness for C2 at the concrete write (1, green-only) of a length-6 render. -/
theorem C2_witness :
    ((1, rgb_u32 0 (255 >>> 3) 0) ∈ fade_frame_writes 6 255 255 255) ∧
    ((1, rgb_u32 0 (255 >>> 3) 0) : Nat × Nat).2 =
      (if ((1, rgb_u32 0 (255 >>> 3) 0) : Nat × Nat).1 % 3 = 0 then
        rgb_u32 (255 >>> 3) 0 0
      else if ((1, rgb_u32 0 (255 >>> 3) 0) : Nat × Nat).1 % 3 = 1 then
        rgb_u32 0 (255 >>> 3) 0
      else rgb_u32 0 0 (255 >>> 3)) :=
  ⟨by decide, C2_fade_interleaves_channels 6 255 255 255 _ (by decide)⟩

/-- Helper: below the reset point, step_three's counter just increments. -/
theorem step_three_ramp (t i v : Nat) (h : v + t ≤ 254) :
    step_three_advance^[t] ⟨i, v⟩ = ⟨i, v + t⟩ := by
  induction t generalizing v with
  | zero => simp
  | succ t ih =>
    rw [Function.iterate_succ_apply]
    have h1 : (v + 1) % 256 = v + 1 := Nat.mod_eq_of_lt (by omega)
    have h2 : v + 1 ≠ 255 := by omega
    have hstep : step_three_advance ⟨i, v⟩ = ⟨i, v + 1⟩ := by
      simp [step_three_advance, h1, h2]
    rw [hstep, ih (v + 1) (by omega)]
    congr 1
    omega

/-- Helper: 255 steps from a phase start complete the phase and advance the
index with its wrap past 2. -/
theorem step_three_phase (i : Nat) :
    step_three_advance^[255] ⟨i, 0⟩ = ⟨if i + 1 > 2 then 0 else i + 1, 0⟩ := by
  rw [show (255 : Nat) = 1 + 254 from rfl, Function.iterate_add_apply,
    step_three_ramp 254 i 0 (by omega)]
  norm_num [step_three_advance]

/-- Claim C6 counterexample: the claim has phase 0 ramping 0 up to 255, one
unit per frame, so frame 255 would still be phase 0 showing 255; in the code
frame 254 shows counter 254 and frame 255 has already advanced to phase 1
with counter 0 (255 is never shown).  Also the buffer holds the counter
scaled down by a right shift of 3, not the counter itself: at counter 9 the
fill is rgb_u32 1 0 0. -/
theorem C6_counterexample :
    step_three_advance^[254] (⟨0, 0⟩ : StepState) = ⟨0, 254⟩ ∧
    step_three_advance^[255] (⟨0, 0⟩ : StepState) = ⟨1, 0⟩ ∧
    (step_three_advance^[255] (⟨0, 0⟩ : StepState)).clr_index ≠ 0 ∧
    step_three_frame 4 ⟨0, 9⟩ = List.replicate 4 (rgb_u32 1 0 0) ∧
    rgb_u32 1 0 0 ≠ rgb_u32 9 0 0 := by
  have hramp := step_three_ramp 254 0 0 (by omega)
  rw [Nat.zero_add] at hramp
  have hphase : step_three_advance^[255] (⟨0, 0⟩ : StepState) = ⟨1, 0⟩ := by
    rw [step_three_phase 0]
    decide
  refine ⟨hramp, hphase, by rw [hphase]; decide, by decide, by decide⟩

/-- Claim C6 (amended): the three phases repeat cyclically with period
3 * 255 frames; during phase p (p = 0 red, 1 green, 2 blue), frame
255 * p + t of the cycle (t < 255) uniformly fills the buffer with the
single active channel holding the ramp counter t scaled down by a right
shift of 3, the other channels zero; the counter ramps 0..254 in unit
increments and the phase advances when the increment reaches 255 and the
counter resets to 0. -/
theorem C6_step_cycle_phases (array_size p t : Nat) (hp : p < 3) (ht : t < 255) :
    step_three_advance^[255 * p + t] ⟨0, 0⟩ = ⟨p, t⟩ ∧
    step_three_frame array_size ⟨p, t⟩ =
      List.replicate array_size
        (if p = 0 then rgb_u32 (t >>> 3) 0 0
         else if p = 1 then rgb_u32 0 (t >>> 3) 0
         else rgb_u32 0 0 (t >>> 3)) ∧
    step_three_advance^[3 * 255] ⟨0, 0⟩ = ⟨0, 0⟩ := by
  have h0 : step_three_advance^[255] (⟨0, 0⟩ : StepState) = ⟨1, 0⟩ := by
    rw [step_three_phase 0]
    decide
  have h1 : step_three_advance^[255] (⟨1, 0⟩ : StepState) = ⟨2, 0⟩ := by
    rw [step_three_phase 1]
    decide
  have h2 : step_three_advance^[255] (⟨2, 0⟩ : StepState) = ⟨0, 0⟩ := by
    rw [step_three_phase 2]
    decide
  refine ⟨?_, ?_, ?_⟩
  · interval_cases p
    · simpa using step_three_ramp t 0 0 (by omega)
    · rw [show 255 * 1 + t = t + 255 from by ring, Function.iterate_add_apply, h0]
      simpa using step_three_ramp t 1 0 (by omega)
    · rw [show 255 * 2 + t = t + (255 + 255) from by ring,
        Function.iterate_add_apply, Function.iterate_add_apply, h0, h1]
      simpa using step_three_ramp t 2 0 (by omega)
  · interval_cases p <;> simp [step_three_frame, led_array_set]
  · rw [show (3 * 255 : Nat) = 255 + (255 + 255) from by norm_num,
      Function.iterate_add_apply, Function.iterate_add_apply, h0, h1, h2]

/-- Witness for C6 at buffer length 5, phase 1, ramp counter 7. -/
theorem C6_witness :
    ((1 : Nat) < 3) ∧ ((7 : Nat) < 255) ∧
    (step_three_advance^[255 * 1 + 7] ⟨0, 0⟩ = ⟨1, 7⟩ ∧
     step_three_frame 5 ⟨1, 7⟩ =
       List.replicate 5
         (if (1 : Nat) = 0 then rgb_u32 (7 >>> 3) 0 0
          else if (1 : Nat) = 1 then rgb_u32 0 (7 >>> 3) 0
          else rgb_u32 0 0 (7 >>> 3)) ∧
     step_three_advance^[3 * 255] ⟨0, 0⟩ = ⟨0, 0⟩) :=
  ⟨by decide, by decide, C6_step_cycle_phases 5 1 7 (by decide) (by decide)⟩

/-- Helper: a forward step strictly below the end advances the position. -/
theorem chase_advance_fwd (N : Nat) (s : ChaseState) (hd : s.clr_dir = 1)
    (h : s.clr_pos + 1 ≠ (N : Int)) :
    chase_advance N s = { s with clr_pos := s.clr_pos + 1 } := by
  simp [chase_advance, hd, h]

/-- Helper: a forward step reaching the end keeps the position at N-1 and
reverses direction. -/
theorem chase_advance_fwd_hit (N : Nat) (s : ChaseState) (hd : s.clr_dir = 1)
    (h : s.clr_pos + 1 = (N : Int)) :
    chase_advance N s = { s with clr_dir := -1 } := by
  have hps : s.clr_pos + 1 - 1 = s.clr_pos := by omega
  simp only [chase_advance, hd, if_pos rfl, if_pos h, hps]
  simp

/-- Helper: a backward step strictly above 0 retreats the position. -/
theorem chase_advance_bwd (N : Nat) (s : ChaseState) (hd : s.clr_dir = -1)
    (h : ¬(s.clr_pos - 1 < 0)) :
    chase_advance N s = { s with clr_pos := s.clr_pos - 1 } := by
  have hd1 : s.clr_dir ≠ 1 := by omega
  simp [chase_advance, hd, hd1, h]

/-- Helper: a backward step out of position 0 resets to 0, turns forward
and rotates the colour id. -/
theorem chase_advance_bwd_hit (N : Nat) (s : ChaseState) (hd : s.clr_dir = -1)
    (h : s.clr_pos - 1 < 0) :
    chase_advance N s = ⟨0, 1, chase_next_id s.clr_id⟩ := by
  have hd1 : s.clr_dir ≠ 1 := by omega
  simp [chase_advance, hd, hd1, h]

/-- Helper: while moving forward from position 0, chase advances one cell
per frame without touching direction or colour. -/
theorem chase_up (N c k : Nat) (h : k < N) :
    (chase_advance N)^[k] ⟨0, 1, c⟩ = ⟨(k : Int), 1, c⟩ := by
  induction k with
  | zero => simp
  | succ k ih =>
    rw [Function.iterate_succ_apply', ih (by omega),
      chase_advance_fwd N ⟨(k : Int), 1, c⟩ rfl (by simp <;> omega)]
    simp [ChaseState.mk.injEq] <;> omega

/-- Helper: after N frames from position 0 moving forward, chase sits at
position N-1 with direction reversed. -/
theorem chase_top (N c : Nat) (h : 1 ≤ N) :
    (chase_advance N)^[N] ⟨0, 1, c⟩ = ⟨(N : Int) - 1, -1, c⟩ := by
  obtain ⟨M, rfl⟩ : ∃ M, N = M + 1 := ⟨N - 1, by omega⟩
  rw [Function.iterate_succ_apply', chase_up (M + 1) c M (by omega),
    chase_advance_fwd_hit (M + 1) ⟨(M : Int), 1, c⟩ rfl (by simp <;> omega)]
  simp [ChaseState.mk.injEq] <;> omega

/-- Helper: while moving backward from position N-1, chase retreats one cell
per frame without touching direction or colour. -/
theorem chase_down (N c k : Nat) (h : k < N) :
    (chase_advance N)^[k] ⟨(N : Int) - 1, -1, c⟩ = ⟨(N : Int) - 1 - k, -1, c⟩ := by
  induction k with
  | zero => simp
  | succ k ih =>
    rw [Function.iterate_succ_apply', ih (by omega),
      chase_advance_bwd N ⟨(N : Int) - 1 - (k : Int), -1, c⟩ rfl (by simp <;> omega)]
    congr 1
    push_cast
    ring

/-- Helper: stepping backward out of position 0 resets to 0, turns forward
and rotates the colour id. -/
theorem chase_bottom (N c : Nat) :
    chase_advance N ⟨0, -1, c⟩ = ⟨0, 1, chase_next_id c⟩ :=
  chase_advance_bwd_hit N ⟨0, -1, c⟩ rfl (by norm_num)

/-- Helper: one chase step preserves the position bounds and keeps the
direction register in the set of 1 and -1. -/
theorem chase_advance_inv (N : Nat) (hN : 1 ≤ N) (s : ChaseState)
    (h0 : 0 ≤ s.clr_pos) (h1 : s.clr_pos < (N : Int))
    (h2 : s.clr_dir = 1 ∨ s.clr_dir = -1) :
    0 ≤ (chase_advance N s).clr_pos ∧
    (chase_advance N s).clr_pos < (N : Int) ∧
    ((chase_advance N s).clr_dir = 1 ∨ (chase_advance N s).clr_dir = -1) := by
  rcases h2 with h2 | h2
  · by_cases hhit : s.clr_pos + 1 = (N : Int)
    · rw [chase_advance_fwd_hit N s h2 hhit]
      refine ⟨?_, ?_, Or.inr ?_⟩ <;> simp <;> omega
    · rw [chase_advance_fwd N s h2 hhit]
      refine ⟨?_, ?_, Or.inl ?_⟩ <;> simp <;> omega
  · by_cases hhit : s.clr_pos - 1 < 0
    · rw [chase_advance_bwd_hit N s h2 hhit]
      refine ⟨?_, ?_, Or.inl ?_⟩ <;> simp <;> omega
    · rw [chase_advance_bwd N s h2 hhit]
      refine ⟨?_, ?_, Or.inr ?_⟩ <;> simp <;> omega

/-- Helper: from chase_colour's start state the position stays within
0..N-1 and the direction register stays in the set of 1 and -1. -/
theorem chase_inv (N : Nat) (hN : 1 ≤ N) (t : Nat) :
    0 ≤ ((chase_advance N)^[t] chase_start).clr_pos ∧
    ((chase_advance N)^[t] chase_start).clr_pos < (N : Int) ∧
    (((chase_advance N)^[t] chase_start).clr_dir = 1 ∨
     ((chase_advance N)^[t] chase_start).clr_dir = -1) := by
  induction t with
  | zero =>
    refine ⟨by simp [chase_start], by simp [chase_start]; omega,
      Or.inl (by simp [chase_start])⟩
  | succ t ih =>
    rw [Function.iterate_succ_apply']
    exact chase_advance_inv N hN _ ih.1 ih.2.1 ih.2.2

/-- Claim C9: for every buffer length N >= 1, from chase_colour's start
state the position stays in 0..N-1 at every frame; and from any forward
start-of-sweep state (position 0, direction 1, colour id c), exactly 2 * N
frames complete a full round trip back to position 0 moving forward with
the colour id rotated once, the colour id unchanged at every frame strictly
before the 2 * N-th. -/
theorem C9_chase_invariant_and_colour (N : Nat) (hN : 1 ≤ N) (c : Nat) :
    (∀ t, 0 ≤ ((chase_advance N)^[t] chase_start).clr_pos ∧
          ((chase_advance N)^[t] chase_start).clr_pos < (N : Int)) ∧
    (chase_advance N)^[2 * N] ⟨0, 1, c⟩ = ⟨0, 1, chase_next_id c⟩ ∧
    (∀ t, t < 2 * N → ((chase_advance N)^[t] ⟨0, 1, c⟩).clr_id = c) := by
  refine ⟨fun t => ⟨(chase_inv N hN t).1, (chase_inv N hN t).2.1⟩, ?_, ?_⟩
  · rw [show 2 * N = 1 + ((N - 1) + N) from by omega,
      Function.iterate_add_apply, Function.iterate_add_apply,
      chase_top N c hN, chase_down N c (N - 1) (by omega)]
    have heq : (N : Int) - 1 - ((N - 1 : Nat) : Int) = 0 := by omega
    rw [Function.iterate_one, heq, chase_bottom]
  · intro t ht
    rcases Nat.lt_or_ge t N with h | h
    · rw [chase_up N c t h]
    · rw [show t = (t - N) + N from by omega, Function.iterate_add_apply,
        chase_top N c hN, chase_down N c (t - N) (by omega)]

/-- Witness for C9 at buffer length 3 with the red colour id. -/
theorem C9_witness :
    (1 ≤ 3) ∧
    ((∀ t, 0 ≤ ((chase_advance 3)^[t] chase_start).clr_pos ∧
           ((chase_advance 3)^[t] chase_start).clr_pos < ((3 : Nat) : Int)) ∧
     (chase_advance 3)^[2 * 3] ⟨0, 1, 114⟩ = ⟨0, 1, chase_next_id 114⟩ ∧
     (∀ t, t < 2 * 3 → ((chase_advance 3)^[t] ⟨0, 1, 114⟩).clr_id = 114)) :=
  ⟨by decide, C9_chase_invariant_and_colour 3 (by decide) 114⟩

/-- Claim C3 counterexample: in the length-6 background-off scenario, at
frame 6 the direction has indeed reversed but the lit position is still 5,
not 4 — the code holds the end position for one extra frame. -/
theorem C3_counterexample :
    ((chase_advance 6)^[6] chase_start).clr_dir = -1 ∧
    ((chase_advance 6)^[6] chase_start).clr_pos = 5 ∧
    ((chase_advance 6)^[6] chase_start).clr_pos ≠ 4 := by
  decide

/-- Claim C3 (amended): buffer length 6, chase with background off starting
red at position 0: frames 0..5 light positions 0,1,2,3,4,5 with the
direction still forward at frame 5; at frame 6 the direction has reversed
but position 5 is lit again (held one extra frame), the frame showing red
foreground at cell 5 on a black background; frame 7 lights position 4. -/
theorem C3_chase_scenario :
    (List.range 8).map (fun t => ((chase_advance 6)^[t] chase_start).clr_pos) =
      [0, 1, 2, 3, 4, 5, 5, 4] ∧
    ((chase_advance 6)^[5] chase_start).clr_dir = 1 ∧
    ((chase_advance 6)^[6] chase_start).clr_dir = -1 ∧
    chase_frame 6 false ((chase_advance 6)^[6] chase_start) =
      [0, 0, 0, 0, 0, 0x0f0000] := by
  decide

end WS2812
